import Mathlib

/-!
Shallow embedding of the authenticated-request context resolution and
structured error-propagation pipeline of the fullstack-web-template
repository.

Embedded source files:
* shared/errors.ts        — error taxonomy (`ErrorCode`, `ErrorMessages`,
  `getHttpStatusForCode`, `AppError`, the `Errors` factories)
* server/lib/trpc.ts      — `toTRPCError`, `requireUser`, `requireAdmin`,
  `errorHandler`
* server/db.ts            — `getDb` degradation, `upsertUser`,
  `getUserBySupabaseId`
* server/lib/context.ts   — `createContext`
* drizzle/schema.ts       — the `users` table row type

Modelling conventions:
* JavaScript `undefined` vs `null` on a nullable text field is
  `Option (Option String)`: `none` = field not supplied (undefined),
  `some none` = explicit null, `some (some s)` = a string value.
* `Date` values are `Nat` instants; a supplied `Date` object is always
  truthy in JS, so the source's `!values.lastSignedIn` test is
  `Option.isNone` here.
* Thrown JS values are the inductive `ThrownValue`; `async` functions
  that can throw return `Except ThrownValue α` or a result inductive.
* The wall-clock `timestamp` string carried by `AppError` and the
  diagnostic JS stack are not modelled; the diagnostic `cause` chain is
  modelled by the causing error's message string.
-/

/-- Closed set of application error codes (shared/errors.ts `ErrorCode`). -/
inductive ErrorCode where
  | AUTH_REQUIRED
  | AUTH_INVALID_TOKEN
  | AUTH_EXPIRED_TOKEN
  | AUTH_INVALID_CREDENTIALS
  | FORBIDDEN
  | ADMIN_REQUIRED
  | INSUFFICIENT_PERMISSIONS
  | VALIDATION_ERROR
  | INVALID_INPUT
  | MISSING_REQUIRED_FIELD
  | NOT_FOUND
  | ALREADY_EXISTS
  | CONFLICT
  | INTERNAL_ERROR
  | DATABASE_ERROR
  | SERVICE_UNAVAILABLE
  | EXTERNAL_SERVICE_ERROR
  | RATE_LIMITED
  | TIMEOUT
deriving DecidableEq

/-- Default human-readable message per code (shared/errors.ts `ErrorMessages`). -/
def ErrorMessages : ErrorCode → String
  | .AUTH_REQUIRED => "Please log in to continue"
  | .AUTH_INVALID_TOKEN => "Invalid authentication token"
  | .AUTH_EXPIRED_TOKEN => "Your session has expired, please log in again"
  | .AUTH_INVALID_CREDENTIALS => "Invalid email or password"
  | .FORBIDDEN => "You don\x27t have permission to perform this action"
  | .ADMIN_REQUIRED => "Administrator access required"
  | .INSUFFICIENT_PERMISSIONS => "Insufficient permissions for this operation"
  | .VALIDATION_ERROR => "Invalid input data"
  | .INVALID_INPUT => "The provided input is invalid"
  | .MISSING_REQUIRED_FIELD => "A required field is missing"
  | .NOT_FOUND => "The requested resource was not found"
  | .ALREADY_EXISTS => "This resource already exists"
  | .CONFLICT => "The operation conflicts with existing data"
  | .INTERNAL_ERROR => "An unexpected error occurred"
  | .DATABASE_ERROR => "Database operation failed"
  | .SERVICE_UNAVAILABLE => "Service is temporarily unavailable"
  | .EXTERNAL_SERVICE_ERROR => "External service error"
  | .RATE_LIMITED => "Too many requests, please try again later"
  | .TIMEOUT => "The operation timed out"

/-- Default HTTP status per code (shared/errors.ts `getHttpStatusForCode`). -/
def getHttpStatusForCode : ErrorCode → Nat
  | .AUTH_REQUIRED => 401
  | .AUTH_INVALID_TOKEN => 401
  | .AUTH_EXPIRED_TOKEN => 401
  | .AUTH_INVALID_CREDENTIALS => 401
  | .FORBIDDEN => 403
  | .ADMIN_REQUIRED => 403
  | .INSUFFICIENT_PERMISSIONS => 403
  | .VALIDATION_ERROR => 400
  | .INVALID_INPUT => 400
  | .MISSING_REQUIRED_FIELD => 400
  | .NOT_FOUND => 404
  | .ALREADY_EXISTS => 409
  | .CONFLICT => 409
  | .INTERNAL_ERROR => 500
  | .DATABASE_ERROR => 500
  | .SERVICE_UNAVAILABLE => 503
  | .EXTERNAL_SERVICE_ERROR => 502
  | .RATE_LIMITED => 429
  | .TIMEOUT => 504

/-- Structured details payload (`Record<string, unknown>`), modelled as a
key-value list with stringified values. -/
def Details : Type := List (String × String)
deriving instance DecidableEq for Details

/-- Options accepted by the `AppError` constructor (shared/errors.ts
`AppErrorOptions`); `none` means the option was not supplied. -/
structure AppErrorOptions where
  code : ErrorCode
  message : Option String
  cause : Option String
  details : Option Details
  statusCode : Option Nat
deriving DecidableEq

/-- The application error value (shared/errors.ts `AppError` fields). -/
structure AppError where
  code : ErrorCode
  message : String
  details : Option Details
  statusCode : Nat
  cause : Option String
deriving DecidableEq

/-- The `AppError` constructor body: message defaults to
`ErrorMessages[code]`, statusCode defaults to `getHttpStatusForCode(code)`. -/
def AppError.make (options : AppErrorOptions) : AppError :=
  { code := options.code
    message := options.message.getD (ErrorMessages options.code)
    details := options.details
    statusCode := options.statusCode.getD (getHttpStatusForCode options.code)
    cause := options.cause }

/-- tRPC transport error codes reachable from server/lib/trpc.ts
`toTRPCError`'s `codeMap` (a closed set: every produced code is one of
these). -/
inductive TRPCCode where
  | BAD_REQUEST
  | UNAUTHORIZED
  | FORBIDDEN
  | NOT_FOUND
  | CONFLICT
  | TOO_MANY_REQUESTS
  | INTERNAL_SERVER_ERROR
  | BAD_GATEWAY
  | TIMEOUT
deriving DecidableEq

/-- Transport-envelope error (`TRPCError` as constructed by this code:
a code, a message, and the causing `AppError`). -/
structure TRPCError where
  code : TRPCCode
  message : String
  cause : Option AppError
deriving DecidableEq

/-- server/lib/trpc.ts `toTRPCError`: maps `error.statusCode` through
`codeMap` (missing statuses fall back to INTERNAL_SERVER_ERROR); note the
source maps 503 to INTERNAL_SERVER_ERROR, not to a 503-specific code. -/
def toTRPCError (error : AppError) : TRPCError :=
  let mapped : Option TRPCCode :=
    if error.statusCode = 400 then some .BAD_REQUEST
    else if error.statusCode = 401 then some .UNAUTHORIZED
    else if error.statusCode = 403 then some .FORBIDDEN
    else if error.statusCode = 404 then some .NOT_FOUND
    else if error.statusCode = 409 then some .CONFLICT
    else if error.statusCode = 429 then some .TOO_MANY_REQUESTS
    else if error.statusCode = 500 then some .INTERNAL_SERVER_ERROR
    else if error.statusCode = 502 then some .BAD_GATEWAY
    else if error.statusCode = 503 then some .INTERNAL_SERVER_ERROR
    else if error.statusCode = 504 then some .TIMEOUT
    else none
  { code := mapped.getD .INTERNAL_SERVER_ERROR
    message := error.message
    cause := some error }

/-- A value thrown by JS code, as the middleware discriminates it:
an `AppError` instance, a `TRPCError` instance, any other `Error`
instance (carrying a message), or a non-Error value (carrying its
`String(...)` form). -/
inductive ThrownValue where
  | appError (e : AppError)
  | trpcError (e : TRPCError)
  | jsError (message : String)
  | nonError (stringForm : String)
deriving DecidableEq

/-- shared/errors.ts `AppError.from`: an `AppError` passes through; any
other `Error` instance (including `TRPCError`) is wrapped with the default
code, preserving its message as message and cause; a non-Error value is
wrapped via its string form. -/
def AppError.fromUnknown (error : ThrownValue) (defaultCode : ErrorCode) : AppError :=
  match error with
  | .appError e => e
  | .trpcError t =>
      AppError.make { code := defaultCode, message := some t.message,
                      cause := some t.message, details := none, statusCode := none }
  | .jsError m =>
      AppError.make { code := defaultCode, message := some m,
                      cause := some m, details := none, statusCode := none }
  | .nonError s =>
      AppError.make { code := defaultCode, message := some s,
                      cause := none, details := none, statusCode := none }

namespace Errors

/-- shared/errors.ts `Errors.authRequired`. -/
def authRequired (message : Option String) : AppError :=
  AppError.make { code := .AUTH_REQUIRED, message := message,
                  cause := none, details := none, statusCode := some 401 }

/-- shared/errors.ts `Errors.adminRequired`. -/
def adminRequired (message : Option String) : AppError :=
  AppError.make { code := .ADMIN_REQUIRED, message := message,
                  cause := none, details := none, statusCode := some 403 }

/-- shared/errors.ts `Errors.validation`. -/
def validation (details : Details) (message : Option String) : AppError :=
  AppError.make { code := .VALIDATION_ERROR, message := message,
                  cause := none, details := some details, statusCode := some 400 }

/-- shared/errors.ts `Errors.database`. -/
def database (message : Option String) (cause : Option String) : AppError :=
  AppError.make { code := .DATABASE_ERROR, message := message,
                  cause := cause, details := none, statusCode := some 500 }

end Errors

/-- A user row of the `users` table (drizzle/schema.ts). `role` is the
text enum {"user", "admin"} with database default "user"; timestamps are
instants. -/
structure User where
  id : Nat
  supabaseId : String
  name : Option String
  email : Option String
  loginMethod : Option String
  role : String
  createdAt : Nat
  updatedAt : Nat
  lastSignedIn : Nat
deriving DecidableEq

/-- The per-request tRPC context (server/lib/context.ts `TrpcContext`),
with the raw transport handles kept abstract. -/
structure TrpcContext (Req Res : Type) where
  req : Req
  res : Res
  user : Option User

/-- server/lib/trpc.ts `requireUser`: throws
`toTRPCError(Errors.authRequired())` when `ctx.user` is absent, otherwise
calls `next` with the user pinned in the downstream context. -/
def requireUser {Req Res α : Type} (ctx : TrpcContext Req Res)
    (next : TrpcContext Req Res → Except ThrownValue α) : Except ThrownValue α :=
  match ctx.user with
  | none => .error (.trpcError (toTRPCError (Errors.authRequired none)))
  | some u => next { ctx with user := some u }

/-- server/lib/trpc.ts `requireAdmin`: throws AUTH_REQUIRED when the user
is absent, ADMIN_REQUIRED when `ctx.user.role !== "admin"`, otherwise
calls `next`. -/
def requireAdmin {Req Res α : Type} (ctx : TrpcContext Req Res)
    (next : TrpcContext Req Res → Except ThrownValue α) : Except ThrownValue α :=
  match ctx.user with
  | none => .error (.trpcError (toTRPCError (Errors.authRequired none)))
  | some u =>
      if u.role ≠ "admin" then
        .error (.trpcError (toTRPCError (Errors.adminRequired none)))
      else
        next { ctx with user := some u }

/-- server/lib/trpc.ts `errorHandler`: awaits `next()`; rethrows a
`TRPCError` unchanged, converts an `AppError` via `toTRPCError`, and wraps
anything else through `AppError.from(error, INTERNAL_ERROR)` first. -/
def errorHandler {α : Type} (next : Except ThrownValue α) : Except ThrownValue α :=
  match next with
  | .ok v => .ok v
  | .error e =>
      match e with
      | .trpcError t => .error (.trpcError t)
      | .appError a => .error (.trpcError (toTRPCError a))
      | other => .error (.trpcError (toTRPCError (AppError.fromUnknown other .INTERNAL_ERROR)))

/-- The sparse `InsertUser` row handed to `upsertUser` (drizzle
`$inferInsert`; only the fields the directory code reads). An outer
`none` on a nullable text field means the field was not supplied
(undefined); `some none` is explicit null. `lastSignedIn` and `role` are
not nullable, so supplied values are plain. A missing `supabaseId`
(undefined in TS) is the empty string, matching the source's falsiness
test. -/
structure InsertUser where
  supabaseId : String
  name : Option (Option String)
  email : Option (Option String)
  loginMethod : Option (Option String)
  lastSignedIn : Option Nat
  role : Option String
deriving DecidableEq

/-- The `updateSet` object built by `upsertUser` for the ON CONFLICT DO
UPDATE clause: a field is `none` when absent from the set. -/
structure UpdateSet where
  name : Option (Option String)
  email : Option (Option String)
  loginMethod : Option (Option String)
  lastSignedIn : Option Nat
  role : Option String
deriving DecidableEq

/-- Test for `Object.keys(updateSet).length === 0` on the built update set. -/
def UpdateSet.isEmpty (s : UpdateSet) : Bool :=
  s.name.isNone && s.email.isNone && s.loginMethod.isNone &&
    s.lastSignedIn.isNone && s.role.isNone

/-- The `values` / `updateSet` construction inside server/db.ts
`upsertUser` (lines building `values`, `assignNullable` over the text
fields, the `lastSignedIn` / `role` copies, the `!values.lastSignedIn`
stamp and the empty-`updateSet` stamp). Copying a field only when it is
not `undefined`, with `value ?? null` normalisation, is the identity on
the `Option (Option _)` representation. A supplied `Date` is a truthy
object, so `!values.lastSignedIn` holds exactly when the field was never
assigned. -/
def buildUpsert (user : InsertUser) (now : Nat) : InsertUser × UpdateSet :=
  let values : InsertUser :=
    { supabaseId := user.supabaseId, name := user.name, email := user.email,
      loginMethod := user.loginMethod, lastSignedIn := user.lastSignedIn,
      role := user.role }
  let updateSet : UpdateSet :=
    { name := user.name, email := user.email, loginMethod := user.loginMethod,
      lastSignedIn := user.lastSignedIn, role := user.role }
  let values :=
    if values.lastSignedIn.isNone then { values with lastSignedIn := some now }
    else values
  let updateSet :=
    if updateSet.isEmpty then { updateSet with lastSignedIn := some now }
    else updateSet
  (values, updateSet)

/-- SQL semantics of applying the DO UPDATE `set` clause to the
conflicting row: only columns present in the set change. -/
def applyUpdate (row : User) (s : UpdateSet) : User :=
  { row with
    name := match s.name with | some v => v | none => row.name
    email := match s.email with | some v => v | none => row.email
    loginMethod := match s.loginMethod with | some v => v | none => row.loginMethod
    lastSignedIn := match s.lastSignedIn with | some v => v | none => row.lastSignedIn
    role := match s.role with | some v => v | none => row.role }

/-- The `users` table: its rows plus the serial-id counter. -/
structure DbState where
  rows : List User
  nextId : Nat
deriving DecidableEq

/-- Row completion on INSERT from the sparse `values`, with the schema's
column defaults (`role` defaults "user"; `createdAt`, `updatedAt`,
`lastSignedIn` default now; serial `id`). -/
def newRowFromValues (id : Nat) (values : InsertUser) (now : Nat) : User :=
  { id := id
    supabaseId := values.supabaseId
    name := values.name.getD none
    email := values.email.getD none
    loginMethod := values.loginMethod.getD none
    role := values.role.getD "user"
    createdAt := now
    updatedAt := now
    lastSignedIn := values.lastSignedIn.getD now }

/-- Semantics of `INSERT ... ON CONFLICT (supabase_id) DO UPDATE SET ...`: if a row
with the same `supabaseId` exists it is updated in place via the set
clause, otherwise a fresh row is inserted. -/
def dbUpsert (st : DbState) (values : InsertUser) (updateSet : UpdateSet) (now : Nat) : DbState :=
  if (st.rows.find? (fun r => r.supabaseId == values.supabaseId)).isSome then
    { st with rows := st.rows.map (fun r =>
        if r.supabaseId == values.supabaseId then applyUpdate r updateSet else r) }
  else
    { rows := st.rows ++ [newRowFromValues st.nextId values now],
      nextId := st.nextId + 1 }

/-- Outcome of one `upsertUser` call. -/
inductive UpsertResult where
  | thrown (e : ThrownValue)
  | droppedNoDb
  | written (st : DbState)
deriving DecidableEq

/-- server/db.ts `upsertUser`. `dbAvailable` is whether `getDb()` yields a
handle (it caught the connection error and returned null otherwise, in
which case the write is logged and dropped). `storeFail` is the error the
database client throws during the insert, if any: the catch block logs it
and rethrows it unchanged. -/
def upsertUser (dbAvailable : Bool) (st : DbState) (storeFail : Option ThrownValue)
    (user : InsertUser) (now : Nat) : UpsertResult :=
  if user.supabaseId = "" then
    .thrown (.jsError "User supabaseId is required for upsert")
  else if dbAvailable = false then
    .droppedNoDb
  else
    match storeFail with
    | some e => .thrown e
    | none =>
        let vs := buildUpsert user now
        .written (dbUpsert st vs.1 vs.2 now)

/-- server/db.ts `getUserBySupabaseId`: returns `undefined` when the
database handle is unavailable, otherwise a `SELECT ... WHERE supabase_id
= $1 LIMIT 1` point lookup. -/
def getUserBySupabaseId (dbAvailable : Bool) (st : DbState) (supabaseId : String) : Option User :=
  if dbAvailable = false then none
  else st.rows.find? (fun r => r.supabaseId == supabaseId)

/-- The verified subject record returned by
`supabaseAdmin.auth.getUser(token)` on success: subject id, optional
email, the two metadata name fields, and the provider. -/
structure SupabaseUser where
  id : String
  email : Option String
  fullName : Option String
  metaName : Option String
  provider : Option String
deriving DecidableEq

/-- Result of identity-provider verification: a verified subject, or a
failure (`error` set, or no user in the payload). -/
inductive VerifyResult where
  | verified (u : SupabaseUser)
  | failed
deriving DecidableEq

/-- Predicate `s.startsWith pre`, stated on the underlying character lists (the
character-level prefix test is the specification of the byte-position
implementation of `String.startsWith`, which does not reduce in the
kernel). -/
def strStartsWith (s pre : String) : Bool :=
  pre.data.isPrefixOf s.data

/-- The environment `createContext` runs in: the request's authorization
header, whether `getSupabaseAdmin()` returns a client, the provider's
verification function, whether `getDb()` yields a handle, and the error
the database client would throw on a write, if any. -/
structure AuthEnv where
  authHeader : Option String
  supabaseAdmin : Bool
  verify : String → VerifyResult
  dbAvailable : Bool
  storeFail : Option ThrownValue

/-- server/lib/context.ts `createContext`: resolves the bearer credential
to a local user, creating or refreshing the directory record; the whole
body is wrapped in try/catch, so any thrown error (in particular a
rethrown store error from `upsertUser`) leaves `user` null. Returns the
context and the resulting table state. -/
def createContext {Req Res : Type} (env : AuthEnv) (req : Req) (res : Res)
    (st : DbState) (now : Nat) : TrpcContext Req Res × DbState :=
  let anon : TrpcContext Req Res := { req := req, res := res, user := none }
  match env.authHeader with
  | none => (anon, st)
  | some h =>
      if strStartsWith h "Bearer " && env.supabaseAdmin then
        let token := h.drop 7
        match env.verify token with
        | .failed => (anon, st)
        | .verified su =>
            match getUserBySupabaseId env.dbAvailable st su.id with
            | some dbUser =>
                -- seen before: refresh last-signed-in only
                let refresh : InsertUser :=
                  { supabaseId := su.id, name := none, email := none,
                    loginMethod := none, lastSignedIn := some now, role := none }
                match upsertUser env.dbAvailable st env.storeFail refresh now with
                | .thrown _ => (anon, st)
                | .droppedNoDb => ({ anon with user := some dbUser }, st)
                | .written st' => ({ anon with user := some dbUser }, st')
            | none =>
                -- first time: create, then re-read the stored record
                let firstTime : InsertUser :=
                  { supabaseId := su.id
                    email := some su.email
                    name := some (su.fullName.orElse (fun _ => su.metaName))
                    loginMethod := some su.provider
                    lastSignedIn := some now
                    role := none }
                match upsertUser env.dbAvailable st env.storeFail firstTime now with
                | .thrown _ => (anon, st)
                | .droppedNoDb =>
                    ({ anon with user := getUserBySupabaseId env.dbAvailable st su.id }, st)
                | .written st' =>
                    ({ anon with user := getUserBySupabaseId env.dbAvailable st' su.id }, st')
      else (anon, st)

/-- The error code carried when an `upsertUser` outcome is a thrown
`AppError`; `none` when nothing was thrown or the thrown value is not an
`AppError`. -/
def thrownAppErrorCode : UpsertResult → Option ErrorCode
  | .thrown (.appError a) => some a.code
  | _ => none

/-- The rows of the `users` table carrying a given external identifier. -/
def usersWithId (st : DbState) (x : String) : List User :=
  st.rows.filter (fun r => r.supabaseId == x)

/-! ## Theorems -/

/-- Claim C8: constructing an `AppError` without an explicit message
yields the kind's default message (AUTH_REQUIRED yields "Please log in to
continue"), constructing without an explicit status code yields the
kind's default status (AUTH_REQUIRED 401, FORBIDDEN 403, ADMIN_REQUIRED
403, VALIDATION_ERROR 400, NOT_FOUND 404, ALREADY_EXISTS 409,
INTERNAL_ERROR 500, DATABASE_ERROR 500, SERVICE_UNAVAILABLE 503,
EXTERNAL_SERVICE_ERROR 502, RATE_LIMITED 429, TIMEOUT 504), and an
explicitly supplied message or status code overrides the default. -/
theorem appError_defaults :
    (∀ code : ErrorCode,
        (AppError.make { code := code, message := none, cause := none,
                         details := none, statusCode := none }).message
          = ErrorMessages code
      ∧ (AppError.make { code := code, message := none, cause := none,
                         details := none, statusCode := none }).statusCode
          = getHttpStatusForCode code)
    ∧ (∀ (code : ErrorCode) (m : String) (s : Nat) (c : Option String)
          (d : Option Details),
        (AppError.make { code := code, message := some m, cause := c,
                         details := d, statusCode := some s }).message = m
      ∧ (AppError.make { code := code, message := some m, cause := c,
                         details := d, statusCode := some s }).statusCode = s)
    ∧ ErrorMessages .AUTH_REQUIRED = "Please log in to continue"
    ∧ getHttpStatusForCode .AUTH_REQUIRED = 401
    ∧ getHttpStatusForCode .FORBIDDEN = 403
    ∧ getHttpStatusForCode .ADMIN_REQUIRED = 403
    ∧ getHttpStatusForCode .VALIDATION_ERROR = 400
    ∧ getHttpStatusForCode .NOT_FOUND = 404
    ∧ getHttpStatusForCode .ALREADY_EXISTS = 409
    ∧ getHttpStatusForCode .INTERNAL_ERROR = 500
    ∧ getHttpStatusForCode .DATABASE_ERROR = 500
    ∧ getHttpStatusForCode .SERVICE_UNAVAILABLE = 503
    ∧ getHttpStatusForCode .EXTERNAL_SERVICE_ERROR = 502
    ∧ getHttpStatusForCode .RATE_LIMITED = 429
    ∧ getHttpStatusForCode .TIMEOUT = 504 := by
  refine ⟨fun code => ⟨rfl, rfl⟩, fun code m s c d => ⟨rfl, rfl⟩, ?_⟩
  repeat constructor

/-- Claim C2: `requireUser` fails with a transport error caused by an
`AppError` of kind AUTH_REQUIRED and status 401 when the context's user
is absent, and calls `next` with the user present in the downstream
context when the user is present. -/
theorem requireUser_spec {Req Res α : Type} (ctx : TrpcContext Req Res)
    (next : TrpcContext Req Res → Except ThrownValue α) :
    (ctx.user = none →
        requireUser ctx next
          = .error (.trpcError (toTRPCError (Errors.authRequired none)))
      ∧ (toTRPCError (Errors.authRequired none)).cause
          = some (Errors.authRequired none)
      ∧ (Errors.authRequired none).code = .AUTH_REQUIRED
      ∧ (Errors.authRequired none).statusCode = 401)
    ∧ (∀ u : User, ctx.user = some u →
        requireUser ctx next = next { ctx with user := some u }) := by
  constructor
  · intro h
    refine ⟨?_, rfl, rfl, rfl⟩
    simp [requireUser, h]
  · intro u h
    simp [requireUser, h]

theorem requireUser_spec_witness :
    requireUser ({ req := (), res := (), user := none } : TrpcContext Unit Unit)
        (fun _ => Except.ok (0 : Nat))
      = .error (.trpcError (toTRPCError (Errors.authRequired none))) :=
  ((requireUser_spec ({ req := (), res := (), user := none } : TrpcContext Unit Unit)
      (fun _ => Except.ok (0 : Nat))).1 rfl).1

/-- A concrete non-admin user row, used to instantiate guard theorems. -/
def sampleUser : User :=
  { id := 1, supabaseId := "s1", name := none, email := none,
    loginMethod := none, role := "user", createdAt := 0,
    updatedAt := 0, lastSignedIn := 0 }

/-- Claim C3: `requireAdmin` fails with kind AUTH_REQUIRED when the
context's user is absent, fails with kind ADMIN_REQUIRED and status 403
when the user is present but its role is not "admin", and calls `next`
when the user's role is "admin". -/
theorem requireAdmin_spec {Req Res α : Type} (ctx : TrpcContext Req Res)
    (next : TrpcContext Req Res → Except ThrownValue α) :
    (ctx.user = none →
        requireAdmin ctx next
          = .error (.trpcError (toTRPCError (Errors.authRequired none)))
      ∧ (Errors.authRequired none).code = .AUTH_REQUIRED)
    ∧ (∀ u : User, ctx.user = some u → u.role ≠ "admin" →
        requireAdmin ctx next
          = .error (.trpcError (toTRPCError (Errors.adminRequired none)))
      ∧ (toTRPCError (Errors.adminRequired none)).cause
          = some (Errors.adminRequired none)
      ∧ (Errors.adminRequired none).code = .ADMIN_REQUIRED
      ∧ (Errors.adminRequired none).statusCode = 403)
    ∧ (∀ u : User, ctx.user = some u → u.role = "admin" →
        requireAdmin ctx next = next { ctx with user := some u }) := by
  refine ⟨fun h => ⟨?_, rfl⟩, fun u h hrole => ⟨?_, rfl, rfl, rfl⟩, fun u h hrole => ?_⟩
  · simp [requireAdmin, h]
  · simp [requireAdmin, h, hrole]
  · simp [requireAdmin, h, hrole]

theorem requireAdmin_spec_witness :
    requireAdmin ({ req := (), res := (), user := some sampleUser } : TrpcContext Unit Unit)
        (fun _ => Except.ok (0 : Nat))
      = .error (.trpcError (toTRPCError (Errors.adminRequired none))) :=
  ((requireAdmin_spec
      ({ req := (), res := (), user := some sampleUser } : TrpcContext Unit Unit)
      (fun _ => Except.ok (0 : Nat))).2.1 _ rfl (by decide)).1

/-- Claim C4: `errorHandler` passes a success through, rethrows a failure
already in transport-envelope form unchanged, maps an `AppError` into
transport form by its kind, coerces any other thrown value into an
`AppError` of kind INTERNAL_ERROR first, and never lets an error escape
that is not a transport-envelope error. -/
theorem errorHandler_normalizes {α : Type} (next : Except ThrownValue α) :
    (∀ v : α, next = .ok v → errorHandler next = .ok v)
    ∧ (∀ t : TRPCError, next = .error (.trpcError t) →
        errorHandler next = .error (.trpcError t))
    ∧ (∀ a : AppError, next = .error (.appError a) →
        errorHandler next = .error (.trpcError (toTRPCError a)))
    ∧ (∀ m : String, next = .error (.jsError m) →
        errorHandler next
          = .error (.trpcError
              (toTRPCError (AppError.fromUnknown (.jsError m) .INTERNAL_ERROR)))
      ∧ (AppError.fromUnknown (.jsError m) .INTERNAL_ERROR).code = .INTERNAL_ERROR)
    ∧ (∀ s : String, next = .error (.nonError s) →
        errorHandler next
          = .error (.trpcError
              (toTRPCError (AppError.fromUnknown (.nonError s) .INTERNAL_ERROR)))
      ∧ (AppError.fromUnknown (.nonError s) .INTERNAL_ERROR).code = .INTERNAL_ERROR)
    ∧ (∀ e : ThrownValue, errorHandler next = .error e →
        ∃ t : TRPCError, e = .trpcError t) := by
  refine ⟨fun v h => by simp [errorHandler, h],
          fun t h => by simp [errorHandler, h],
          fun a h => by simp [errorHandler, h],
          fun m h => ⟨by simp [errorHandler, h], rfl⟩,
          fun s h => ⟨by simp [errorHandler, h], rfl⟩, ?_⟩
  intro e h
  match hn : next with
  | .ok v => simp [errorHandler, hn] at h
  | .error (.trpcError t) => exact ⟨t, by simp [errorHandler, hn] at h; exact h.symm⟩
  | .error (.appError a) =>
      exact ⟨toTRPCError a, by simp [errorHandler, hn] at h; exact h.symm⟩
  | .error (.jsError m) =>
      exact ⟨toTRPCError (AppError.fromUnknown (.jsError m) .INTERNAL_ERROR),
             by simp [errorHandler, hn] at h; exact h.symm⟩
  | .error (.nonError s) =>
      exact ⟨toTRPCError (AppError.fromUnknown (.nonError s) .INTERNAL_ERROR),
             by simp [errorHandler, hn] at h; exact h.symm⟩

theorem errorHandler_normalizes_witness :
    errorHandler (Except.error (ThrownValue.jsError "boom") : Except ThrownValue Nat)
      = .error (.trpcError
          (toTRPCError (AppError.fromUnknown (.jsError "boom") .INTERNAL_ERROR))) :=
  ((errorHandler_normalizes
      (Except.error (ThrownValue.jsError "boom") : Except ThrownValue Nat)).2.2.2.1
    "boom" rfl).1

/-- Counterexample to claim C5 as stated: at the concrete input with an
empty external identifier, `upsertUser` throws a plain `Error` (message
"User supabaseId is required for upsert"), which is not an Application
Error of kind VALIDATION_ERROR. -/
theorem upsertUser_empty_id_not_validation_error :
    upsertUser true { rows := [], nextId := 0 } none
        { supabaseId := "", name := none, email := none, loginMethod := none,
          lastSignedIn := none, role := none } 0
      = .thrown (.jsError "User supabaseId is required for upsert")
    ∧ thrownAppErrorCode
        (upsertUser true { rows := [], nextId := 0 } none
          { supabaseId := "", name := none, email := none, loginMethod := none,
            lastSignedIn := none, role := none } 0)
      ≠ some ErrorCode.VALIDATION_ERROR := by
  exact ⟨rfl, by decide⟩

/-- Claim C5 amended: for every input to the directory upsert whose
external identifier is empty or missing, the upsert fails — but by
throwing a plain `Error` with message "User supabaseId is required for
upsert", not an Application Error of kind VALIDATION_ERROR. -/
theorem upsertUser_empty_id_throws_plain_error
    (dbAvailable : Bool) (st : DbState) (storeFail : Option ThrownValue)
    (user : InsertUser) (now : Nat) (h : user.supabaseId = "") :
    upsertUser dbAvailable st storeFail user now
      = .thrown (.jsError "User supabaseId is required for upsert")
    ∧ ∀ a : AppError,
        ThrownValue.jsError "User supabaseId is required for upsert"
          ≠ ThrownValue.appError a := by
  refine ⟨by simp [upsertUser, h], fun a hc => ThrownValue.noConfusion hc⟩

theorem upsertUser_empty_id_throws_plain_error_witness :
    upsertUser true { rows := [], nextId := 0 } none
        { supabaseId := "", name := none, email := none, loginMethod := none,
          lastSignedIn := none, role := none } 7
      = .thrown (.jsError "User supabaseId is required for upsert") :=
  (upsertUser_empty_id_throws_plain_error true { rows := [], nextId := 0 } none
    { supabaseId := "", name := none, email := none, loginMethod := none,
      lastSignedIn := none, role := none } 7 rfl).1

/-- Counterexample to claim C6 as stated: at a concrete input where the
underlying store fails the write (the database client throws a
connection error), `upsertUser` rethrows that error unchanged; what
surfaces to the caller is not an Application Error of kind
DATABASE_ERROR. -/
theorem upsertUser_store_failure_not_database_error :
    upsertUser true { rows := [], nextId := 0 }
        (some (.jsError "connection refused"))
        { supabaseId := "sub-1", name := none, email := none, loginMethod := none,
          lastSignedIn := none, role := none } 0
      = .thrown (.jsError "connection refused")
    ∧ thrownAppErrorCode
        (upsertUser true { rows := [], nextId := 0 }
          (some (.jsError "connection refused"))
          { supabaseId := "sub-1", name := none, email := none, loginMethod := none,
            lastSignedIn := none, role := none } 0)
      ≠ some ErrorCode.DATABASE_ERROR := by
  exact ⟨by decide, by decide⟩

/-- Claim C6 amended: when the underlying store is unreachable during the
write, the directory upsert failure surfaces to the caller as the
store's own error rethrown unchanged (not wrapped into an Application
Error of kind DATABASE_ERROR); when the store connection cannot be
established at all, the directory never raises: reads
(`getUserBySupabaseId`) return absent and writes (`upsertUser`) are
silently dropped with a logged warning. -/
theorem upsertUser_failure_modes
    (st : DbState) (user : InsertUser) (now : Nat) (e : ThrownValue)
    (storeFail : Option ThrownValue) (x : String) (h : user.supabaseId ≠ "") :
    upsertUser true st (some e) user now = .thrown e
    ∧ upsertUser false st storeFail user now = .droppedNoDb
    ∧ getUserBySupabaseId false st x = none := by
  refine ⟨by simp [upsertUser, h], by simp [upsertUser, h], by simp [getUserBySupabaseId]⟩

theorem upsertUser_failure_modes_witness :
    upsertUser true { rows := [], nextId := 0 }
        (some (.jsError "connection refused"))
        { supabaseId := "sub-1", name := none, email := none, loginMethod := none,
          lastSignedIn := none, role := none } 7
      = .thrown (.jsError "connection refused")
    ∧ upsertUser false { rows := [], nextId := 0 } none
        { supabaseId := "sub-1", name := none, email := none, loginMethod := none,
          lastSignedIn := none, role := none } 7
      = .droppedNoDb
    ∧ getUserBySupabaseId false { rows := [], nextId := 0 } "sub-1" = none := by
  have h := upsertUser_failure_modes { rows := [], nextId := 0 }
    { supabaseId := "sub-1", name := none, email := none, loginMethod := none,
      lastSignedIn := none, role := none } 7 (.jsError "connection refused")
    none "sub-1" (by decide)
  exact h

/-- Claim C7: if no last-signed-in timestamp is supplied and no other
updatable field is supplied in the call, the current time is stamped as
last-signed-in (in both the insert values and the conflict update set);
on conflict, only fields explicitly supplied by the caller are updated:
an absent field is left untouched, an explicit null clears the field, a
supplied value is written, a supplied role or last-signed-in value is
written, and an unsupplied last-signed-in is left untouched whenever any
other updatable field was supplied; the insert values always carry a
last-signed-in value, so every record created by an upsert is fresh. -/
theorem upsert_field_update_semantics (user : InsertUser) (now : Nat) (row : User) :
    (user.lastSignedIn = none → user.name = none → user.email = none →
     user.loginMethod = none → user.role = none →
        (buildUpsert user now).2.lastSignedIn = some now
      ∧ (applyUpdate row (buildUpsert user now).2).lastSignedIn = now
      ∧ (buildUpsert user now).1.lastSignedIn = some now)
    ∧ ((buildUpsert user now).1.lastSignedIn).isSome = true
    ∧ (user.name = none → (applyUpdate row (buildUpsert user now).2).name = row.name)
    ∧ (user.name = some none → (applyUpdate row (buildUpsert user now).2).name = none)
    ∧ (∀ v, user.name = some (some v) →
        (applyUpdate row (buildUpsert user now).2).name = some v)
    ∧ (user.email = none → (applyUpdate row (buildUpsert user now).2).email = row.email)
    ∧ (user.email = some none → (applyUpdate row (buildUpsert user now).2).email = none)
    ∧ (∀ v, user.email = some (some v) →
        (applyUpdate row (buildUpsert user now).2).email = some v)
    ∧ (user.loginMethod = none →
        (applyUpdate row (buildUpsert user now).2).loginMethod = row.loginMethod)
    ∧ (user.loginMethod = some none →
        (applyUpdate row (buildUpsert user now).2).loginMethod = none)
    ∧ (∀ v, user.loginMethod = some (some v) →
        (applyUpdate row (buildUpsert user now).2).loginMethod = some v)
    ∧ (user.role = none → (applyUpdate row (buildUpsert user now).2).role = row.role)
    ∧ (∀ v, user.role = some v → (applyUpdate row (buildUpsert user now).2).role = v)
    ∧ (∀ t, user.lastSignedIn = some t →
        (applyUpdate row (buildUpsert user now).2).lastSignedIn = t)
    ∧ (user.lastSignedIn = none →
        (user.name ≠ none ∨ user.email ≠ none ∨ user.loginMethod ≠ none ∨
         user.role ≠ none) →
        (applyUpdate row (buildUpsert user now).2).lastSignedIn = row.lastSignedIn) := by
  refine ⟨?_, ?_, ?_, ?_, ?_, ?_, ?_, ?_, ?_, ?_, ?_, ?_, ?_, ?_, ?_⟩
  · intro h1 h2 h3 h4 h5
    simp [buildUpsert, UpdateSet.isEmpty, applyUpdate, h1, h2, h3, h4, h5]
  · simp only [buildUpsert]
    cases h : user.lastSignedIn <;> simp [h]
  · intro h; simp [buildUpsert, UpdateSet.isEmpty, applyUpdate, h]
    by_cases he : user.email = none <;>
      by_cases hl : user.loginMethod = none <;>
      by_cases hr : user.role = none <;>
      by_cases hs : user.lastSignedIn = none <;>
      simp [he, hl, hr, hs]
  · intro h; simp [buildUpsert, UpdateSet.isEmpty, applyUpdate, h]
  · intro v h; simp [buildUpsert, UpdateSet.isEmpty, applyUpdate, h]
  · intro h; simp [buildUpsert, UpdateSet.isEmpty, applyUpdate, h]
    by_cases hn : user.name = none <;>
      by_cases hl : user.loginMethod = none <;>
      by_cases hr : user.role = none <;>
      by_cases hs : user.lastSignedIn = none <;>
      simp [hn, hl, hr, hs]
  · intro h; simp [buildUpsert, UpdateSet.isEmpty, applyUpdate, h]
  · intro v h; simp [buildUpsert, UpdateSet.isEmpty, applyUpdate, h]
  · intro h; simp [buildUpsert, UpdateSet.isEmpty, applyUpdate, h]
    by_cases hn : user.name = none <;>
      by_cases he : user.email = none <;>
      by_cases hr : user.role = none <;>
      by_cases hs : user.lastSignedIn = none <;>
      simp [hn, he, hr, hs]
  · intro h; simp [buildUpsert, UpdateSet.isEmpty, applyUpdate, h]
  · intro v h; simp [buildUpsert, UpdateSet.isEmpty, applyUpdate, h]
  · intro h; simp [buildUpsert, UpdateSet.isEmpty, applyUpdate, h]
    by_cases hn : user.name = none <;>
      by_cases he : user.email = none <;>
      by_cases hl : user.loginMethod = none <;>
      by_cases hs : user.lastSignedIn = none <;>
      simp [hn, he, hl, hs]
  · intro v h; simp [buildUpsert, UpdateSet.isEmpty, applyUpdate, h]
  · intro t h; simp [buildUpsert, UpdateSet.isEmpty, applyUpdate, h]
  · intro h hne
    rcases hne with hx | hx | hx | hx <;>
      [cases hn : user.name; cases hn : user.email; cases hn : user.loginMethod;
       cases hn : user.role] <;>
      first
        | exact absurd hn hx
        | simp [buildUpsert, UpdateSet.isEmpty, applyUpdate, h, hn]

theorem upsert_field_update_semantics_witness :
    (buildUpsert
        { supabaseId := "sub-1", name := none, email := none, loginMethod := none,
          lastSignedIn := none, role := none } 7).2.lastSignedIn = some 7 :=
  ((upsert_field_update_semantics
      { supabaseId := "sub-1", name := none, email := none, loginMethod := none,
        lastSignedIn := none, role := none } 7 sampleUser).1
    rfl rfl rfl rfl rfl).1

/-- Claim C1: context resolution is total (it always returns a context),
and whenever no bearer credential is present, or the identity-provider
client is unavailable, or verification of the presented credential
fails, the returned context carries an absent user and the user table is
untouched. -/
theorem createContext_absent_user_on_auth_failure {Req Res : Type}
    (req : Req) (res : Res) (env : AuthEnv) (st : DbState) (now : Nat)
    (h : env.authHeader = none
       ∨ (∀ hd, env.authHeader = some hd → strStartsWith hd "Bearer " = false)
       ∨ env.supabaseAdmin = false
       ∨ (∀ hd, env.authHeader = some hd → env.verify (hd.drop 7) = .failed)) :
    (createContext env req res st now).1.user = none
    ∧ (createContext env req res st now).2 = st := by
  cases hah : env.authHeader with
  | none => simp [createContext, hah]
  | some hd =>
      rcases h with h | h | h | h
      · rw [hah] at h; exact Option.noConfusion h
      · simp [createContext, hah, h hd hah]
      · simp [createContext, hah, h]
      · have hv := h hd hah
        by_cases hc : (strStartsWith hd "Bearer " && env.supabaseAdmin) = true
        · simp [createContext, hah, hc, hv]
        · simp [createContext, hah, hc]

theorem createContext_absent_user_on_auth_failure_witness :
    (createContext
        { authHeader := none, supabaseAdmin := false,
          verify := fun _ => .failed, dbAvailable := false, storeFail := none }
        () () { rows := [], nextId := 0 } 0).1.user = none :=
  (createContext_absent_user_on_auth_failure () ()
    { authHeader := none, supabaseAdmin := false,
      verify := fun _ => .failed, dbAvailable := false, storeFail := none }
    { rows := [], nextId := 0 } 0 (Or.inl rfl)).1

/-- Claim C10: for a request whose bearer credential the identity
provider verifies, if the database handle cannot be created, context
resolution still succeeds with an absent user: the directory lookup
returns absent, the creation write is dropped, and the re-read leaves the
verified caller anonymous with the table unchanged. -/
theorem createContext_db_unavailable_anonymous {Req Res : Type}
    (req : Req) (res : Res) (env : AuthEnv) (st : DbState) (now : Nat)
    (hd : String) (su : SupabaseUser)
    (h1 : env.authHeader = some hd) (h2 : strStartsWith hd "Bearer " = true)
    (h3 : env.supabaseAdmin = true) (h4 : env.verify (hd.drop 7) = .verified su)
    (h5 : env.dbAvailable = false) (h6 : su.id ≠ "") :
    getUserBySupabaseId env.dbAvailable st su.id = none
    ∧ upsertUser env.dbAvailable st env.storeFail
        { supabaseId := su.id, email := some su.email,
          name := some (su.fullName.orElse (fun _ => su.metaName)),
          loginMethod := some su.provider, lastSignedIn := some now, role := none } now
      = .droppedNoDb
    ∧ (createContext env req res st now).1.user = none
    ∧ (createContext env req res st now).2 = st := by
  have hget : getUserBySupabaseId env.dbAvailable st su.id = none := by
    simp [getUserBySupabaseId, h5]
  have hup : upsertUser env.dbAvailable st env.storeFail
      { supabaseId := su.id, email := some su.email,
        name := some (su.fullName.orElse (fun _ => su.metaName)),
        loginMethod := some su.provider, lastSignedIn := some now, role := none } now
      = .droppedNoDb := by
    simp [upsertUser, h5, h6]
  refine ⟨hget, hup, ?_, ?_⟩ <;>
    simp [createContext, h1, h2, h3, h4, hget, hup]

theorem createContext_db_unavailable_anonymous_witness :
    (createContext
        { authHeader := some "Bearer tok", supabaseAdmin := true,
          verify := fun _ => .verified
            { id := "sub-1", email := none, fullName := none,
              metaName := none, provider := none },
          dbAvailable := false, storeFail := none }
        () () { rows := [], nextId := 0 } 7).1.user = none :=
  (createContext_db_unavailable_anonymous () ()
    { authHeader := some "Bearer tok", supabaseAdmin := true,
      verify := fun _ => .verified
        { id := "sub-1", email := none, fullName := none,
          metaName := none, provider := none },
      dbAvailable := false, storeFail := none }
    { rows := [], nextId := 0 } 7 "Bearer tok"
    { id := "sub-1", email := none, fullName := none,
      metaName := none, provider := none }
    rfl (by decide) rfl rfl rfl (by decide)).2.2.1

/-- The DO UPDATE branch of the upsert never changes a row's key. -/
theorem applyUpdate_supabaseId (r : User) (s : UpdateSet) :
    (applyUpdate r s).supabaseId = r.supabaseId := rfl

/-- Point lookup commutes with the keyed in-place update: updating the
rows whose key is `x` and then looking up `x` finds exactly the updated
version of what was there before. -/
theorem find?_map_updateKey (l : List User) (x : String) (s : UpdateSet) :
    (l.map (fun r => if r.supabaseId == x then applyUpdate r s else r)).find?
        (fun r => r.supabaseId == x)
      = (l.find? (fun r => r.supabaseId == x)).map (fun r => applyUpdate r s) := by
  induction l with
  | nil => rfl
  | cons a l ih =>
      simp only [List.map_cons, List.find?_cons]
      by_cases h : (a.supabaseId == x) = true
      · have h2 : ((applyUpdate a s).supabaseId == x) = true := by
          rw [applyUpdate_supabaseId]; exact h
        rw [if_pos h, h, h2]
        rfl
      · have h2 : (a.supabaseId == x) = false := by
          cases hb : (a.supabaseId == x) with
          | true => exact absurd hb h
          | false => rfl
        rw [if_neg h, h2]
        exact ih

/-- The keyed in-place update preserves the number of rows carrying the
key. -/
theorem filter_map_updateKey_length (l : List User) (x : String) (s : UpdateSet) :
    ((l.map (fun r => if r.supabaseId == x then applyUpdate r s else r)).filter
        (fun r => r.supabaseId == x)).length
      = (l.filter (fun r => r.supabaseId == x)).length := by
  rw [← List.countP_eq_length_filter, ← List.countP_eq_length_filter, List.countP_map]
  refine List.countP_congr (fun r _ => ?_)
  by_cases h : (r.supabaseId == x) = true
  · simp [Function.comp, h, applyUpdate_supabaseId]
  · simp [Function.comp, h]

/-- One database upsert preserves the unique-key invariant: if at most
one row carries the key beforehand, at most one row carries it
afterwards. -/
theorem dbUpsert_count_le_one (st : DbState) (values : InsertUser) (s : UpdateSet)
    (now : Nat) (h : (usersWithId st values.supabaseId).length ≤ 1) :
    (usersWithId (dbUpsert st values s now) values.supabaseId).length ≤ 1 := by
  unfold dbUpsert
  by_cases hf : (st.rows.find? (fun r => r.supabaseId == values.supabaseId)).isSome = true
  · rw [if_pos hf]
    unfold usersWithId at h ⊢
    show ((st.rows.map (fun r =>
        if r.supabaseId == values.supabaseId then applyUpdate r s else r)).filter
          (fun r => r.supabaseId == values.supabaseId)).length ≤ 1
    rw [filter_map_updateKey_length]
    exact h
  · rw [if_neg hf]
    have hnone : st.rows.find? (fun r => r.supabaseId == values.supabaseId) = none :=
      Option.not_isSome_iff_eq_none.mp hf
    have hfil : st.rows.filter (fun r => r.supabaseId == values.supabaseId) = [] := by
      rw [List.filter_eq_nil_iff]
      intro a ha
      simpa using List.find?_eq_none.mp hnone a ha
    unfold usersWithId
    simp [List.filter_append, hfil, newRowFromValues]

/-- The insert `values` record keeps the caller's external identifier. -/
theorem buildUpsert_fst_supabaseId (user : InsertUser) (now : Nat) :
    (buildUpsert user now).1.supabaseId = user.supabaseId := by
  by_cases hni : user.lastSignedIn.isNone = true <;> simp [buildUpsert, hni]

/-- Claim C9: calling the directory upsert twice with the same external
identifier never produces two distinct local Users (given the table's
unique-key invariant, at most one row carries the identifier afterwards);
in particular, when the identifier was already present and the second
call is the repeat-request refresh payload (only a last-signed-in
timestamp), no new row is created and the stored record keeps its role,
name and email, with only last-signed-in advanced. -/
theorem upsert_idempotent_identity
    (st st1 st2 : DbState) (x : String) (u1 : InsertUser) (now1 now2 : Nat)
    (sf1 sf2 : Option ThrownValue) (r : User)
    (hinv : (usersWithId st x).length ≤ 1)
    (hid : u1.supabaseId = x)
    (h1 : upsertUser true st sf1 u1 now1 = .written st1)
    (h2 : upsertUser true st1 sf2
        { supabaseId := x, name := none, email := none, loginMethod := none,
          lastSignedIn := some now2, role := none } now2 = .written st2)
    (hr : getUserBySupabaseId true st1 x = some r) :
    (usersWithId st2 x).length ≤ 1
    ∧ st2.rows.length = st1.rows.length
    ∧ getUserBySupabaseId true st2 x = some { r with lastSignedIn := now2 } := by
  have hx1 : ¬ u1.supabaseId = "" := by
    intro hc
    simp [upsertUser, hc] at h1
  have hx : ¬ x = "" := hid ▸ hx1
  have hfind : st1.rows.find? (fun rr => rr.supabaseId == x) = some r := by
    simpa [getUserBySupabaseId] using hr
  cases sf1 with
  | some e => simp [upsertUser, hx1] at h1
  | none =>
    cases sf2 with
    | some e => simp [upsertUser, hx] at h2
    | none =>
      have hst1 : dbUpsert st (buildUpsert u1 now1).1 (buildUpsert u1 now1).2 now1 = st1 := by
        simpa [upsertUser, hx1] using h1
      have hst2 : dbUpsert st1
          { supabaseId := x, name := none, email := none, loginMethod := none,
            lastSignedIn := some now2, role := none }
          { name := none, email := none, loginMethod := none,
            lastSignedIn := some now2, role := none } now2 = st2 := by
        simpa [upsertUser, hx, buildUpsert, UpdateSet.isEmpty] using h2
      have hst2eq : st2 = { st1 with rows := st1.rows.map (fun rr =>
          if rr.supabaseId == x then applyUpdate rr
            { name := none, email := none, loginMethod := none,
              lastSignedIn := some now2, role := none }
          else rr) } := by
        rw [← hst2]
        unfold dbUpsert
        simp [hfind]
      have hle1 : (usersWithId st1 x).length ≤ 1 := by
        rw [← hst1]
        have hk := dbUpsert_count_le_one st (buildUpsert u1 now1).1 (buildUpsert u1 now1).2
          now1 (by rw [buildUpsert_fst_supabaseId, hid]; exact hinv)
        rw [buildUpsert_fst_supabaseId, hid] at hk
        exact hk
      refine ⟨?_, ?_, ?_⟩
      · rw [hst2eq]
        show ((st1.rows.map (fun rr =>
            if rr.supabaseId == x then applyUpdate rr
              { name := none, email := none, loginMethod := none,
                lastSignedIn := some now2, role := none }
            else rr)).filter (fun rr => rr.supabaseId == x)).length ≤ 1
        rw [filter_map_updateKey_length]
        exact hle1
      · rw [hst2eq]
        simp
      · rw [hst2eq]
        show (getUserBySupabaseId true { st1 with rows := st1.rows.map (fun rr =>
            if rr.supabaseId == x then applyUpdate rr
              { name := none, email := none, loginMethod := none,
                lastSignedIn := some now2, role := none }
            else rr) } x) = some { r with lastSignedIn := now2 }
        unfold getUserBySupabaseId
        rw [if_neg (by decide)]
        show (st1.rows.map (fun rr =>
            if rr.supabaseId == x then applyUpdate rr
              { name := none, email := none, loginMethod := none,
                lastSignedIn := some now2, role := none }
            else rr)).find? (fun rr => rr.supabaseId == x)
          = some { r with lastSignedIn := now2 }
        rw [find?_map_updateKey, hfind]
        rfl

theorem upsert_idempotent_identity_witness :
    (usersWithId
        { rows := [{ id := 0, supabaseId := "s1", name := none, email := none,
                     loginMethod := none, role := "user", createdAt := 5,
                     updatedAt := 5, lastSignedIn := 9 }], nextId := 1 } "s1").length ≤ 1
    ∧ ([{ id := 0, supabaseId := "s1", name := none, email := none,
          loginMethod := none, role := "user", createdAt := 5,
          updatedAt := 5, lastSignedIn := 9 }] : List User).length
      = ([{ id := 0, supabaseId := "s1", name := none, email := none,
            loginMethod := none, role := "user", createdAt := 5,
            updatedAt := 5, lastSignedIn := 5 }] : List User).length
    ∧ getUserBySupabaseId true
        { rows := [{ id := 0, supabaseId := "s1", name := none, email := none,
                     loginMethod := none, role := "user", createdAt := 5,
                     updatedAt := 5, lastSignedIn := 9 }], nextId := 1 } "s1"
      = some { id := 0, supabaseId := "s1", name := none, email := none,
               loginMethod := none, role := "user", createdAt := 5,
               updatedAt := 5, lastSignedIn := 9 } :=
  upsert_idempotent_identity
    { rows := [], nextId := 0 }
    { rows := [{ id := 0, supabaseId := "s1", name := none, email := none,
                 loginMethod := none, role := "user", createdAt := 5,
                 updatedAt := 5, lastSignedIn := 5 }], nextId := 1 }
    { rows := [{ id := 0, supabaseId := "s1", name := none, email := none,
                 loginMethod := none, role := "user", createdAt := 5,
                 updatedAt := 5, lastSignedIn := 9 }], nextId := 1 }
    "s1"
    { supabaseId := "s1", name := none, email := none, loginMethod := none,
      lastSignedIn := none, role := none }
    5 9 none none
    { id := 0, supabaseId := "s1", name := none, email := none,
      loginMethod := none, role := "user", createdAt := 5,
      updatedAt := 5, lastSignedIn := 5 }
    (by decide) rfl (by decide) (by decide) (by decide)
